import Mathlib

/-!
Verification development for the mail-manager account-abstraction and
authentication core (`mail_manager.py`): account registry, credential
resolver, token store, OAuth session manager and the authenticated
session factory with its one-shot refresh-and-retry protocol.

Python values are modelled as follows: JSON token dicts are association
lists of string keys to `JVal` values (preserving insertion order and
Python dict-update semantics); `None`-or-string values are `Option String`
with Python truthiness made explicit; the token file is a `FileState`
describing what the two I/O steps (open, json parse) would do; network
collaborators (IMAP server, SMTP server, Azure token endpoint) are
oracles passed in as functions, and every session-open flow also returns
the trace of authentication attempts and refresh exchanges it performed
together with the final file state.
-/

/-- A JSON scalar stored in the token dict. -/
inductive JVal where
  | str (s : String)
  | num (n : Int)
deriving DecidableEq, Repr

/-- Python `str()` of a scalar, as used when a dict value is interpolated. -/
def pyStr : JVal → String
  | .str s => s
  | .num n => toString n

/-- A Python dict of JSON scalars, in insertion order (the token dict). -/
abbrev Tokens := List (String × JVal)

/-- Python `d[k]` lookup (first, hence unique, binding of the key). -/
def dlookup (d : Tokens) (k : String) : Option JVal :=
  match d with
  | [] => none
  | (k', v) :: rest => if k' = k then some v else dlookup rest k

/-- Python `k in d` key-membership test. -/
def hasKey (d : Tokens) (k : String) : Bool :=
  (dlookup d k).isSome

/-- Python `d[k] = v` assignment: replace in place or append. -/
def dset (d : Tokens) (k : String) (v : JVal) : Tokens :=
  match d with
  | [] => [(k, v)]
  | (k', v') :: rest => if k' = k then (k, v) :: rest else (k', v') :: dset rest k v

/-- Python truthiness test for an optional string: `None` and `""` are falsy. -/
def pyFalsy : Option String → Bool
  | none => true
  | some s => if s = "" then true else false

/-- The process environment (`os.environ`). -/
abbrev Env := String → Option String

/-- `os.environ.get(k, d)`. -/
def envGet (env : Env) (k d : String) : String :=
  (env k).getD d

/-- What the token file would yield to a reader: absent (`FileNotFoundError`),
present but not valid JSON (`json.JSONDecodeError`), a parsed token dict, or
some other I/O fault (any other `OSError`, carrying its message). -/
inductive FileState where
  | missing
  | unparseable
  | parsed (t : Tokens)
  | ioFault (msg : String)
deriving DecidableEq, Repr

/-- `load_tokens()`: catches `FileNotFoundError` and `json.JSONDecodeError`,
returning `None` for both; any other exception propagates. -/
def load_tokens : FileState → Except String (Option Tokens)
  | .missing => .ok none
  | .unparseable => .ok none
  | .parsed t => .ok (some t)
  | .ioFault m => .error m

/-- `save_tokens(tokens)`: stamps `saved_at` into the dict (mutating it, so
the caller sees the stamp too) and overwrites the file with it. Returns the
stamped dict and the resulting file state. -/
def save_tokens (tokens : Tokens) (now : String) : Tokens × FileState :=
  let t := dset tokens "saved_at" (.str now)
  (t, .parsed t)

/-- `get_valid_access_token()`: load the stored dict; `None` or an empty dict
is "no tokens"; otherwise return the `access_token` entry if present. -/
def get_valid_access_token (fs : FileState) : Except String (Option String × Option String) :=
  match load_tokens fs with
  | .error e => .error e
  | .ok none => .ok (none, some "No tokens found. Run 'oauth-init' first.")
  | .ok (some tokens) =>
    if tokens = [] then .ok (none, some "No tokens found. Run 'oauth-init' first.")
    else
      match dlookup tokens "access_token" with
      | some v => .ok (some (pyStr v), none)
      | none => .ok (none, some "No access token found")

/-- One account's entry in the `SERVERS` table. -/
structure ServerConfig where
  imap : String
  imap_port : Nat
  smtp : String
  smtp_port : Nat
  email_env : String
  password_env : String
  imap_login_env : Option String
  use_ssl_smtp : Bool
  use_oauth : Bool
deriving DecidableEq, Repr

/-- The `SERVERS` registry, frozen from the environment at process start. -/
def SERVERS (env : Env) (account : String) : Option ServerConfig :=
  if account = "gmail" then
    some ⟨"imap.gmail.com", 993, "smtp.gmail.com", 587,
          "GMAIL_ADDRESS", "GMAIL_APP_PASSWORD", none, false, false⟩
  else if account = "ac-creteil" then
    some ⟨envGet env "AC_CRETEIL_IMAP" "imap.ac-creteil.fr",
          ((envGet env "AC_CRETEIL_IMAP_PORT" "993").toNat?).getD 0,
          envGet env "AC_CRETEIL_SMTP" "smtp.ac-creteil.fr",
          ((envGet env "AC_CRETEIL_SMTP_PORT" "465").toNat?).getD 0,
          "AC_CRETEIL_EMAIL", "AC_CRETEIL_PASSWORD",
          some "AC_CRETEIL_IMAP_LOGIN", true, false⟩
  else if account = "hotmail" then
    some ⟨"outlook.office365.com", 993, "smtp.office365.com", 587,
          "HOTMAIL_ADDRESS", "HOTMAIL_APP_PASSWORD", none, false, true⟩
  else none

/-- `password.replace(" ", "")`: removes exactly the space characters. -/
def removeSpaces (s : String) : String :=
  String.mk (s.toList.filter (fun c => c ≠ ' '))

/-- `get_credentials(account)`: returns `(address, password, error)` with
exactly one of the payload and the error populated as in the source. -/
def get_credentials (env : Env) (account : String) :
    Option String × Option String × Option String :=
  match SERVERS env account with
  | none => (none, none, some ("Unknown account: " ++ account))
  | some config =>
    let address := env config.email_env
    let password := env config.password_env
    if pyFalsy address then (none, none, some ("Missing " ++ config.email_env))
    else if !config.use_oauth && pyFalsy password then
      (none, none, some ("Missing " ++ config.password_env))
    else (address, password.map removeSpaces, none)

/-- UTF-8 encoding of one code point, as a list of byte values. -/
def utf8Char (n : Nat) : List Nat :=
  if n < 128 then [n]
  else if n < 2048 then [192 + n / 64, 128 + n % 64]
  else if n < 65536 then [224 + n / 4096, 128 + (n / 64) % 64, 128 + n % 64]
  else [240 + n / 262144, 128 + (n / 4096) % 64, 128 + (n / 64) % 64, 128 + n % 64]

/-- `s.encode()`: the UTF-8 byte sequence of a string. -/
def utf8Bytes (s : String) : List Nat :=
  s.toList.foldr (fun c acc => utf8Char c.toNat ++ acc) []

/-- The base64 alphabet: maps a sextet to the byte value of its digit. -/
def b64Digit (n : Nat) : Nat :=
  if n < 26 then 65 + n
  else if n < 52 then 97 + (n - 26)
  else if n < 62 then 48 + (n - 52)
  else if n = 62 then 43
  else 47

/-- RFC 4648 base64 of a byte sequence (with `=` padding, byte value 61). -/
def b64Body : List Nat → List Nat
  | a :: b :: c :: rest =>
      b64Digit (a / 4) :: b64Digit (a % 4 * 16 + b / 16) ::
        b64Digit (b % 16 * 4 + c / 64) :: b64Digit (c % 64) :: b64Body rest
  | [a, b] => [b64Digit (a / 4), b64Digit (a % 4 * 16 + b / 16), b64Digit (b % 16 * 4), 61]
  | [a] => [b64Digit (a / 4), b64Digit (a % 4 * 16), 61, 61]
  | [] => []

/-- A byte list of ASCII values rendered as a string. -/
def asciiStr (bs : List Nat) : String :=
  String.mk (bs.map Char.ofNat)

/-- `base64.b64encode(s.encode()).decode()`. -/
def b64encode (s : String) : String :=
  asciiStr (b64Body (utf8Bytes s))

/-- The control byte 0x01 as a one-character string. -/
def ctrlA : String := String.mk [Char.ofNat 1]

/-- `generate_oauth2_string(username, access_token, encode_base64)`. -/
def generate_oauth2_string (username access_token : String) (encode_base64 : Bool) : String :=
  let auth_string := "user=" ++ username ++ ctrlA ++ "auth=Bearer " ++ access_token ++ ctrlA ++ ctrlA
  if encode_base64 then b64encode auth_string else auth_string

/-- `AZURE_CLIENT_ID` as read from the environment at start. -/
def AZURE_CLIENT_ID (env : Env) : String := envGet env "AZURE_CLIENT_ID" ""

/-- `AZURE_TENANT_ID` as read from the environment at start. -/
def AZURE_TENANT_ID (env : Env) : String := envGet env "AZURE_TENANT_ID" "consumers"

/-- The Azure token endpoint as an oracle: what the provider's HTTP token
endpoint answers for a given `refresh_token` or authorization `code`
(`.ok` = HTTP 200 with the parsed JSON dict, `.error` = the error detail
string the HTTP layer would surface). -/
structure TokenEndpoint where
  refreshResp : String → Except String Tokens
  exchangeResp : String → Except String Tokens

/-- `refresh_access_token(refresh_token)`: guard on the Azure configuration,
perform the refresh exchange, persist on success. Returns the Python result
pair, the resulting file state, and the list of refresh exchanges performed
against the endpoint. -/
def refresh_access_token (env : Env) (ep : TokenEndpoint) (now : String)
    (refresh_token : String) (fs : FileState) :
    (Option Tokens × Option String) × FileState × List String :=
  if AZURE_CLIENT_ID env = "" ∨ AZURE_TENANT_ID env = "" then
    ((none, some "Azure OAuth credentials not configured"), fs, [])
  else
    match ep.refreshResp refresh_token with
    | .ok tokens =>
      let st := save_tokens tokens now
      ((some st.1, none), st.2, [refresh_token])
    | .error detail =>
      ((none, some ("Token refresh failed: " ++ detail)), fs, [refresh_token])

/-- `exchange_code_for_tokens(auth_code)`: guard on the Azure configuration,
perform the code exchange, persist on success. Same result shape as
`refresh_access_token`. -/
def exchange_code_for_tokens (env : Env) (ep : TokenEndpoint) (now : String)
    (auth_code : String) (fs : FileState) :
    (Option Tokens × Option String) × FileState × List String :=
  if AZURE_CLIENT_ID env = "" ∨ AZURE_TENANT_ID env = "" then
    ((none, some "Azure OAuth credentials not configured"), fs, [])
  else
    match ep.exchangeResp auth_code with
    | .ok tokens =>
      let st := save_tokens tokens now
      ((some st.1, none), st.2, [auth_code])
    | .error detail =>
      ((none, some ("Token exchange failed: " ++ detail)), fs, [auth_code])

/-- `str(KeyError(k))`: the message of the exception raised by `d[k]` when
the key is absent — the key wrapped in single quotes. -/
def keyErrStr (k : String) : String :=
  String.mk [Char.ofNat 39] ++ k ++ String.mk [Char.ofNat 39]

/-- The error dict `{"success": False, "error": msg}`. -/
structure ErrRec where
  success : Bool
  error : String
deriving DecidableEq, Repr

/-- A live protocol session handle (the `imaplib`/`smtplib` object), opaque
beyond the endpoint it is bound to. -/
structure MailSession where
  host : String
  port : Nat
deriving DecidableEq, Repr

/-- The observable interaction trace of one session-open operation:
the authentication attempts issued (auth string for XOAUTH2, login name
for basic auth), in order, and the refresh tokens exchanged. -/
structure Trace where
  auths : List String
  refreshes : List String
deriving DecidableEq, Repr

/-- The IMAP server as an oracle: whether `IMAP4_SSL` construction succeeds
(`connectErr` = the exception text otherwise), and what `authenticate` /
`login` answer (`none` = success, `some e` = `imaplib.IMAP4.error` with
text `e`). -/
structure ImapServer where
  connects : Bool
  connectErr : String
  xoauth : String → Option String
  basicLogin : String → String → Option String

/-- The result of `connect_imap`: Python's `(mail, error)` pair, plus the
final token-file state and the interaction trace. -/
structure ConnectOut where
  mail : Option MailSession
  err : Option ErrRec
  fs : FileState
  trace : Trace
deriving DecidableEq, Repr

/-- `connect_imap(account)`, with the environment, the IMAP server and the
token endpoint as oracles, `now` the timestamp `save_tokens` would stamp,
and `fs` the token-file state at entry. -/
def connect_imap (env : Env) (srv : ImapServer) (ep : TokenEndpoint) (now : String)
    (fs : FileState) (account : String) : ConnectOut :=
  match SERVERS env account with
  | none => ⟨none, some ⟨false, "IMAP not configured for " ++ account⟩, fs, ⟨[], []⟩⟩
  | some config =>
    if config.imap = "" then
      ⟨none, some ⟨false, "IMAP not configured for " ++ account⟩, fs, ⟨[], []⟩⟩
    else
      match get_credentials env account with
      | (_, _, some error) => ⟨none, some ⟨false, error⟩, fs, ⟨[], []⟩⟩
      | (addressO, passwordO, none) =>
        let address := addressO.getD ""
        if srv.connects then
          let mail : MailSession := ⟨config.imap, config.imap_port⟩
          if config.use_oauth then
            match get_valid_access_token fs with
            | .error e => ⟨none, some ⟨false, "Connection failed: " ++ e⟩, fs, ⟨[], []⟩⟩
            | .ok (_, some token_error) => ⟨none, some ⟨false, token_error⟩, fs, ⟨[], []⟩⟩
            | .ok (tokenO, none) =>
              let access_token := tokenO.getD ""
              let auth1 := generate_oauth2_string address access_token false
              match srv.xoauth auth1 with
              | none => ⟨some mail, none, fs, ⟨[auth1], []⟩⟩
              | some e1 =>
                match load_tokens fs with
                | .error e =>
                  ⟨none, some ⟨false, "Connection failed: " ++ e⟩, fs, ⟨[auth1], []⟩⟩
                | .ok tokensO =>
                  match tokensO with
                  | none =>
                    ⟨none, some ⟨false, "OAuth failed and no refresh token: " ++ e1⟩,
                     fs, ⟨[auth1], []⟩⟩
                  | some tokens =>
                    if tokens = [] then
                      ⟨none, some ⟨false, "OAuth failed and no refresh token: " ++ e1⟩,
                       fs, ⟨[auth1], []⟩⟩
                    else if hasKey tokens "refresh_token" then
                      let rt := pyStr ((dlookup tokens "refresh_token").getD (.str ""))
                      match refresh_access_token env ep now rt fs with
                      | ((_, some refresh_error), fs1, exch) =>
                        ⟨none, some ⟨false, "Token refresh failed: " ++ refresh_error⟩,
                         fs1, ⟨[auth1], exch⟩⟩
                      | ((new_tokensO, none), fs1, exch) =>
                        let new_tokens := new_tokensO.getD []
                        match dlookup new_tokens "access_token" with
                        | none =>
                          ⟨none,
                           some ⟨false, "Connection failed: " ++ keyErrStr "access_token"⟩,
                           fs1, ⟨[auth1], exch⟩⟩
                        | some v =>
                          let auth2 := generate_oauth2_string address (pyStr v) false
                          match srv.xoauth auth2 with
                          | none => ⟨some mail, none, fs1, ⟨[auth1, auth2], exch⟩⟩
                          | some e2 =>
                            ⟨none, some ⟨false, "Authentication failed: " ++ e2⟩,
                             fs1, ⟨[auth1, auth2], exch⟩⟩
                    else
                      ⟨none, some ⟨false, "OAuth failed and no refresh token: " ++ e1⟩,
                       fs, ⟨[auth1], []⟩⟩
          else
            let loginEnvName := config.imap_login_env.getD ""
            let envLogin := envGet env loginEnvName ""
            let imap_login := if envLogin = "" then address else envLogin
            match srv.basicLogin imap_login (passwordO.getD "") with
            | none => ⟨some mail, none, fs, ⟨[imap_login], []⟩⟩
            | some e =>
              ⟨none, some ⟨false, "Authentication failed: " ++ e⟩, fs, ⟨[imap_login], []⟩⟩
        else
          ⟨none, some ⟨false, "Connection failed: " ++ srv.connectErr⟩, fs, ⟨[], []⟩⟩

/-- The SMTP server as an oracle: whether constructing/ehlo/starttls succeed
(`connectErr` = exception text otherwise), what `auth("XOAUTH2", ...)`
answers (`none` = success, `some e` = `SMTPAuthenticationError` with text
`e`), what `login` answers, and what `send_message` answers (`none` =
delivered, `some e` = `SMTPException` with text `e`). -/
structure SmtpServer where
  connects : Bool
  connectErr : String
  auth : String → Option String
  loginResp : String → String → Option String
  sendResp : Option String

/-- The result of `send_email`: the returned dict, reduced to its success
message or its error record. -/
inductive SendResult where
  | ok (message : String)
  | err (e : ErrRec)
deriving DecidableEq, Repr

/-- The result of `send_email` plus final file state and interaction trace. -/
structure SendOut where
  res : SendResult
  fs : FileState
  trace : Trace
deriving DecidableEq, Repr

/-- `send_email(account, to_addr, subject, body)`, with the same oracle
parameters as `connect_imap`. The two non-OAuth transports (implicit TLS
via `SMTP_SSL` vs `starttls`) perform the same observable steps — connect,
`login`, `send_message` — so they share one branch here. -/
def send_email (env : Env) (smtp : SmtpServer) (ep : TokenEndpoint) (now : String)
    (fs : FileState) (account to_addr : String) : SendOut :=
  match SERVERS env account with
  | none => ⟨.err ⟨false, "SMTP not configured for " ++ account⟩, fs, ⟨[], []⟩⟩
  | some config =>
    if config.smtp = "" then
      ⟨.err ⟨false, "SMTP not configured for " ++ account⟩, fs, ⟨[], []⟩⟩
    else
      match get_credentials env account with
      | (_, _, some error) => ⟨.err ⟨false, error⟩, fs, ⟨[], []⟩⟩
      | (fromO, passwordO, none) =>
        let from_addr := fromO.getD ""
        let sent : FileState → Trace → SendOut := fun fs1 tr =>
          match smtp.sendResp with
          | some e => ⟨.err ⟨false, "SMTP error: " ++ e⟩, fs1, tr⟩
          | none =>
            ⟨.ok ("Email sent successfully from " ++ from_addr ++ " to " ++ to_addr),
             fs1, tr⟩
        if config.use_oauth then
          match get_valid_access_token fs with
          | .error e => ⟨.err ⟨false, "Failed to send: " ++ e⟩, fs, ⟨[], []⟩⟩
          | .ok (_, some token_error) => ⟨.err ⟨false, token_error⟩, fs, ⟨[], []⟩⟩
          | .ok (tokenO, none) =>
            if smtp.connects then
              let auth1 := generate_oauth2_string from_addr (tokenO.getD "") false
              match smtp.auth auth1 with
              | none => sent fs ⟨[auth1], []⟩
              | some e1 =>
                match load_tokens fs with
                | .error e => ⟨.err ⟨false, "Failed to send: " ++ e⟩, fs, ⟨[auth1], []⟩⟩
                | .ok tokensO =>
                  match tokensO with
                  | none =>
                    ⟨.err ⟨false, "Authentication failed: " ++ e1⟩, fs, ⟨[auth1], []⟩⟩
                  | some tokens =>
                    if tokens = [] then
                      ⟨.err ⟨false, "Authentication failed: " ++ e1⟩, fs, ⟨[auth1], []⟩⟩
                    else if hasKey tokens "refresh_token" then
                      let rt := pyStr ((dlookup tokens "refresh_token").getD (.str ""))
                      match refresh_access_token env ep now rt fs with
                      | ((_, some refresh_error), fs1, exch) =>
                        ⟨.err ⟨false, "Token refresh failed: " ++ refresh_error⟩,
                         fs1, ⟨[auth1], exch⟩⟩
                      | ((new_tokensO, none), fs1, exch) =>
                        let new_tokens := new_tokensO.getD []
                        match dlookup new_tokens "access_token" with
                        | none =>
                          ⟨.err ⟨false, "Failed to send: " ++ keyErrStr "access_token"⟩,
                           fs1, ⟨[auth1], exch⟩⟩
                        | some v =>
                          let auth2 := generate_oauth2_string from_addr (pyStr v) false
                          match smtp.auth auth2 with
                          | none => sent fs1 ⟨[auth1, auth2], exch⟩
                          | some e2 =>
                            ⟨.err ⟨false, "Authentication failed: " ++ e2⟩,
                             fs1, ⟨[auth1, auth2], exch⟩⟩
                    else
                      ⟨.err ⟨false, "Authentication failed: " ++ e1⟩, fs, ⟨[auth1], []⟩⟩
            else
              ⟨.err ⟨false, "Failed to send: " ++ smtp.connectErr⟩, fs, ⟨[], []⟩⟩
        else
          if smtp.connects then
            match smtp.loginResp from_addr (passwordO.getD "") with
            | none => sent fs ⟨[from_addr], []⟩
            | some e =>
              ⟨.err ⟨false, "Authentication failed: " ++ e⟩, fs, ⟨[from_addr], []⟩⟩
          else
            ⟨.err ⟨false, "Failed to send: " ++ smtp.connectErr⟩, fs, ⟨[], []⟩⟩

/-- The dict returned by `oauth_status()`, reduced to its discriminating
fields. -/
inductive StatusResult where
  | notConfigured
  | configured (saved_at : String) (has_refresh_token : Bool)
deriving DecidableEq, Repr

/-- `oauth_status()`: report the token-store state; an uncaught load fault
propagates. -/
def oauth_status (fs : FileState) : Except String StatusResult :=
  match load_tokens fs with
  | .error e => .error e
  | .ok none => .ok .notConfigured
  | .ok (some tokens) =>
    if tokens = [] then .ok .notConfigured
    else
      .ok (.configured
        (match dlookup tokens "saved_at" with
         | some v => pyStr v
         | none => "unknown")
        (hasKey tokens "refresh_token"))

/-!
Concrete fixtures: a populated environment, token dicts, a token endpoint
and protocol servers with fixed behaviours, used to instantiate the
universally quantified theorems on explicit inputs.
-/

/-- An environment with the Hotmail address and the Azure client id set. -/
def envHot : Env := fun k =>
  if k = "HOTMAIL_ADDRESS" then some "u@h"
  else if k = "AZURE_CLIENT_ID" then some "cid"
  else none

/-- An environment with nothing set. -/
def envNone : Env := fun _ => none

/-- The hotmail entry of the registry. -/
def hotmailCfg : ServerConfig :=
  ⟨"outlook.office365.com", 993, "smtp.office365.com", 587,
   "HOTMAIL_ADDRESS", "HOTMAIL_APP_PASSWORD", none, false, true⟩

/-- A stored token dict with access token A1 and refresh token R1. -/
def tokensA1R1 : Tokens := [("access_token", .str "A1"), ("refresh_token", .str "R1")]

/-- The refreshed token dict with access token A2 and rotated refresh token R2. -/
def tokensA2R2 : Tokens := [("access_token", .str "A2"), ("refresh_token", .str "R2")]

/-- A stored token dict with an access token and no refresh token. -/
def tokensA1only : Tokens := [("access_token", .str "A1")]

/-- A token endpoint that answers refresh R1 and code C with the refreshed
dict and rejects anything else. -/
def epHot : TokenEndpoint :=
  ⟨fun rt => if rt = "R1" then .ok tokensA2R2 else .error "bad_refresh",
   fun c => if c = "C" then .ok tokensA2R2 else .error "bad_code"⟩

/-- The bearer assertion the flows build from the stored access token A1. -/
def auth1h : String := generate_oauth2_string "u@h" "A1" false

/-- The bearer assertion the flows build from the refreshed access token A2. -/
def auth2h : String := generate_oauth2_string "u@h" "A2" false

/-- An IMAP server that accepts every authentication. -/
def srvAcceptAll : ImapServer := ⟨true, "", fun _ => none, fun _ _ => none⟩

/-- An IMAP server that accepts exactly the A2 bearer assertion. -/
def srvRetryOk : ImapServer :=
  ⟨true, "", fun a => if a = auth2h then none else some "bad", fun _ _ => none⟩

/-- An IMAP server that rejects every XOAUTH2 authentication. -/
def srvRejectAll : ImapServer := ⟨true, "", fun _ => some "bad", fun _ _ => none⟩

/-- An SMTP server that accepts every authentication and delivers. -/
def smtpAcceptAll : SmtpServer := ⟨true, "", fun _ => none, fun _ _ => none, none⟩

/-- An SMTP server that accepts exactly the A2 bearer assertion and delivers. -/
def smtpRetryOk : SmtpServer :=
  ⟨true, "", fun a => if a = auth2h then none else some "bad", fun _ _ => none, none⟩

/-- An SMTP server that rejects every XOAUTH2 authentication. -/
def smtpRejectAll : SmtpServer := ⟨true, "", fun _ => some "bad", fun _ _ => none, none⟩

/-- The gmail entry of the registry. -/
def gmailCfg : ServerConfig :=
  ⟨"imap.gmail.com", 993, "smtp.gmail.com", 587,
   "GMAIL_ADDRESS", "GMAIL_APP_PASSWORD", none, false, false⟩

/-- An environment with the Gmail address and an app password rendered with
spaces, as providers display it. -/
def envGmail : Env := fun k =>
  if k = "GMAIL_ADDRESS" then some "a@b"
  else if k = "GMAIL_APP_PASSWORD" then some "abcd efgh ijkl mnop"
  else none

/-- An environment whose Gmail app password contains a tab character. -/
def envGmailTab : Env := fun k =>
  if k = "GMAIL_ADDRESS" then some "a@b"
  else if k = "GMAIL_APP_PASSWORD" then some "ab\tcd"
  else none

/-- A token endpoint whose code exchange answers a token dict without a
refresh token. -/
def epNoRT : TokenEndpoint :=
  ⟨fun _ => .error "bad_refresh",
   fun c => if c = "C" then .ok tokensA1only else .error "bad_code"⟩

/-!
Helper lemmas about the dict operations and string/byte encodings.
-/

theorem dlookup_dset_self (d : Tokens) (k : String) (v : JVal) :
    dlookup (dset d k v) k = some v := by
  induction d with
  | nil => simp [dset, dlookup]
  | cons p rest ih =>
    obtain ⟨k1, v1⟩ := p
    by_cases hk : k1 = k
    · simp [dset, dlookup, hk]
    · simp [dset, dlookup, hk, ih]

theorem dlookup_dset_of_ne (d : Tokens) (k kq : String) (v : JVal) (h : kq ≠ k) :
    dlookup (dset d k v) kq = dlookup d kq := by
  induction d with
  | nil => simp [dset, dlookup, Ne.symm h]
  | cons p rest ih =>
    obtain ⟨k1, v1⟩ := p
    by_cases hk : k1 = k
    · subst hk
      simp [dset, dlookup, Ne.symm h]
    · by_cases hq : k1 = kq
      · subst hq
        simp [dset, dlookup, h]
      · simp [dset, dlookup, hk, hq, ih]

theorem dset_ne_nil (d : Tokens) (k : String) (v : JVal) : dset d k v ≠ [] := by
  cases d with
  | nil => simp [dset]
  | cons p rest =>
    obtain ⟨k1, v1⟩ := p
    by_cases hk : k1 = k <;> simp [dset, hk]

theorem utf8_foldr_acc (l : List Char) (acc : List Nat) :
    l.foldr (fun c a => utf8Char c.toNat ++ a) acc
      = l.foldr (fun c a => utf8Char c.toNat ++ a) [] ++ acc := by
  induction l with
  | nil => simp
  | cons c rest ih => simp [ih]

theorem utf8Bytes_append (a b : String) :
    utf8Bytes (a ++ b) = utf8Bytes a ++ utf8Bytes b := by
  unfold utf8Bytes
  rw [show (a ++ b).toList = a.toList ++ b.toList from congrArg String.data (rfl)]
  rw [List.foldr_append]
  rw [utf8_foldr_acc]

theorem utf8Bytes_ctrlA : utf8Bytes ctrlA = [1] := by decide

theorem string_append_ne_empty (a b : String) (h : a ≠ "") : a ++ b ≠ "" := by
  intro hc
  apply h
  have hd : (a ++ b).data = a.data ++ b.data := String.data_append a b
  rw [hc] at hd
  have hnil : a.data ++ b.data = [] := hd.symm
  have := (List.append_eq_nil.mp hnil).1
  cases a
  simp_all

/-!
C4 — Token Store load: Absent exactly for a missing file or unparseable
content, a raised fault exactly for other I/O failures.
-/

/-- C4: the Token Store load operation returns Absent (not a raised fault)
in exactly two cases — the file does not exist, or its content is not
parseable — and raises only for other unexpected I/O failures. -/
theorem load_tokens_absent_exactly_two_cases :
    (∀ fs : FileState, load_tokens fs = .ok none ↔ fs = .missing ∨ fs = .unparseable) ∧
    (∀ t : Tokens, load_tokens (.parsed t) = .ok (some t)) ∧
    (∀ fs : FileState, ∀ m : String, load_tokens fs = .error m ↔ fs = .ioFault m) := by
  refine ⟨?_, ?_, ?_⟩
  · intro fs
    cases fs <;> simp [load_tokens]
  · intro t
    rfl
  · intro fs m
    cases fs <;> simp [load_tokens]

/-!
C5 — save → load round trip preserves the three token fields.
-/

/-- C5: Token Store save followed immediately by load returns a token dict
whose access_token, refresh_token and token_type entries equal those of
the dict that was saved. -/
theorem save_load_roundtrip_preserves_token_fields :
    ∀ (tokens : Tokens) (now : String),
      load_tokens (save_tokens tokens now).2 = .ok (some (save_tokens tokens now).1) ∧
      dlookup (save_tokens tokens now).1 "access_token" = dlookup tokens "access_token" ∧
      dlookup (save_tokens tokens now).1 "refresh_token" = dlookup tokens "refresh_token" ∧
      dlookup (save_tokens tokens now).1 "token_type" = dlookup tokens "token_type" := by
  intro tokens now
  refine ⟨rfl, ?_, ?_, ?_⟩
  · exact dlookup_dset_of_ne tokens "saved_at" "access_token" (.str now) (by decide)
  · exact dlookup_dset_of_ne tokens "saved_at" "refresh_token" (.str now) (by decide)
  · exact dlookup_dset_of_ne tokens "saved_at" "token_type" (.str now) (by decide)

/-!
C6 — the bearer assertion: three fields separated by the control byte 0x01,
double-terminated, raw by default, base64 of the raw form when requested.
-/

/-- C6: for every username and access token the bearer-assertion builder
yields, in raw form, the bytes of "user=<username>", a 0x01 separator, the
bytes of "auth=Bearer <token>", and two terminating 0x01 bytes; the
base64-selected form is exactly the base64 encoding of that raw form. -/
theorem generate_oauth2_string_structure :
    ∀ username access_token : String,
      utf8Bytes (generate_oauth2_string username access_token false)
        = utf8Bytes ("user=" ++ username) ++ [1]
            ++ utf8Bytes ("auth=Bearer " ++ access_token) ++ [1, 1] ∧
      generate_oauth2_string username access_token true
        = b64encode (generate_oauth2_string username access_token false) := by
  intro u t
  constructor
  · simp only [generate_oauth2_string, if_neg Bool.false_ne_true]
    simp [utf8Bytes_append, utf8Bytes_ctrlA]
  · simp [generate_oauth2_string]

/-!
Evaluation lemmas: how the flows reduce under explicit assumptions about
the registry entry, the stored tokens and the collaborators' answers.
-/

theorem dlookup_ne_nil {tokens : Tokens} {k : String} {v : JVal}
    (h : dlookup tokens k = some v) : tokens ≠ [] := by
  intro hc
  rw [hc] at h
  simp [dlookup] at h

theorem get_credentials_oauth_ok (env : Env) (account : String) (config : ServerConfig)
    (addr : String) (hS : SERVERS env account = some config) (huo : config.use_oauth = true)
    (ha : env config.email_env = some addr) (hne : addr ≠ "") :
    get_credentials env account
      = (some addr, (env config.password_env).map removeSpaces, none) := by
  unfold get_credentials
  rw [hS]
  simp only [ha]
  rw [if_neg (by simp [pyFalsy, hne])]
  rw [if_neg (by simp [huo])]

theorem get_valid_access_token_parsed (tokens : Tokens) (a1 : String)
    (h : dlookup tokens "access_token" = some (.str a1)) :
    get_valid_access_token (.parsed tokens) = .ok (some a1, none) := by
  have hne : tokens ≠ [] := dlookup_ne_nil h
  unfold get_valid_access_token
  simp only [load_tokens]
  rw [if_neg hne, h]
  rfl

theorem refresh_access_token_ok_eval (env : Env) (ep : TokenEndpoint) (now rt : String)
    (newTokens : Tokens) (fs : FileState)
    (hid : AZURE_CLIENT_ID env ≠ "") (hten : AZURE_TENANT_ID env ≠ "")
    (hr : ep.refreshResp rt = .ok newTokens) :
    refresh_access_token env ep now rt fs
      = ((some (dset newTokens "saved_at" (.str now)), none),
         .parsed (dset newTokens "saved_at" (.str now)), [rt]) := by
  unfold refresh_access_token
  rw [if_neg (by simp [hid, hten]), hr]
  rfl

theorem connect_imap_oauth_first_success_eval (env : Env) (srv : ImapServer)
    (ep : TokenEndpoint) (now : String) (fs : FileState) (account : String)
    (config : ServerConfig) (addr tok : String)
    (hS : SERVERS env account = some config) (huo : config.use_oauth = true)
    (himap : config.imap ≠ "")
    (ha : env config.email_env = some addr) (hane : addr ≠ "")
    (hconn : srv.connects = true)
    (hgv : get_valid_access_token fs = .ok (some tok, none))
    (hx1 : srv.xoauth (generate_oauth2_string addr tok false) = none) :
    connect_imap env srv ep now fs account
      = ⟨some ⟨config.imap, config.imap_port⟩, none, fs,
         ⟨[generate_oauth2_string addr tok false], []⟩⟩ := by
  unfold connect_imap
  rw [hS]
  simp only [get_credentials_oauth_ok env account config addr hS huo ha hane]
  rw [if_neg himap, if_pos hconn, if_pos huo]
  simp only [hgv, Option.getD_some, hx1]

theorem connect_imap_oauth_no_refresh_eval (env : Env) (srv : ImapServer)
    (ep : TokenEndpoint) (now : String) (tokens : Tokens) (account : String)
    (config : ServerConfig) (addr a1 e1 : String)
    (hS : SERVERS env account = some config) (huo : config.use_oauth = true)
    (himap : config.imap ≠ "")
    (ha : env config.email_env = some addr) (hane : addr ≠ "")
    (hconn : srv.connects = true)
    (htok : dlookup tokens "access_token" = some (.str a1))
    (hnort : dlookup tokens "refresh_token" = none)
    (hx1 : srv.xoauth (generate_oauth2_string addr a1 false) = some e1) :
    connect_imap env srv ep now (.parsed tokens) account
      = ⟨none, some ⟨false, "OAuth failed and no refresh token: " ++ e1⟩,
         .parsed tokens, ⟨[generate_oauth2_string addr a1 false], []⟩⟩ := by
  have hne : tokens ≠ [] := dlookup_ne_nil htok
  unfold connect_imap
  rw [hS]
  simp only [get_credentials_oauth_ok env account config addr hS huo ha hane]
  rw [if_neg himap, if_pos hconn, if_pos huo]
  simp only [get_valid_access_token_parsed tokens a1 htok, Option.getD_some, hx1,
    load_tokens]
  rw [if_neg hne]
  simp [hasKey, hnort]

theorem connect_imap_oauth_refresh_eval (env : Env) (srv : ImapServer)
    (ep : TokenEndpoint) (now : String) (tokens newTokens : Tokens) (account : String)
    (config : ServerConfig) (addr a1 r1 a2 e1 : String)
    (hS : SERVERS env account = some config) (huo : config.use_oauth = true)
    (himap : config.imap ≠ "")
    (ha : env config.email_env = some addr) (hane : addr ≠ "")
    (hconn : srv.connects = true)
    (htok : dlookup tokens "access_token" = some (.str a1))
    (hrt : dlookup tokens "refresh_token" = some (.str r1))
    (hid : AZURE_CLIENT_ID env ≠ "") (hten : AZURE_TENANT_ID env ≠ "")
    (hr : ep.refreshResp r1 = .ok newTokens)
    (hA2 : dlookup newTokens "access_token" = some (.str a2))
    (hx1 : srv.xoauth (generate_oauth2_string addr a1 false) = some e1) :
    connect_imap env srv ep now (.parsed tokens) account
      = match srv.xoauth (generate_oauth2_string addr a2 false) with
        | none =>
          ⟨some ⟨config.imap, config.imap_port⟩, none,
           .parsed (dset newTokens "saved_at" (.str now)),
           ⟨[generate_oauth2_string addr a1 false,
             generate_oauth2_string addr a2 false], [r1]⟩⟩
        | some e2 =>
          ⟨none, some ⟨false, "Authentication failed: " ++ e2⟩,
           .parsed (dset newTokens "saved_at" (.str now)),
           ⟨[generate_oauth2_string addr a1 false,
             generate_oauth2_string addr a2 false], [r1]⟩⟩ := by
  have hne : tokens ≠ [] := dlookup_ne_nil htok
  unfold connect_imap
  rw [hS]
  simp only [get_credentials_oauth_ok env account config addr hS huo ha hane]
  rw [if_neg himap, if_pos hconn, if_pos huo]
  simp only [get_valid_access_token_parsed tokens a1 htok, Option.getD_some, hx1,
    load_tokens]
  rw [if_neg hne]
  rw [if_pos (by simp [hasKey, hrt])]
  rw [hrt]
  simp only [Option.getD_some, pyStr]
  rw [refresh_access_token_ok_eval env ep now r1 newTokens (.parsed tokens) hid hten hr]
  simp only [Option.getD_some]
  rw [dlookup_dset_of_ne newTokens "saved_at" "access_token" (.str now) (by decide), hA2]

theorem send_email_oauth_first_success_eval (env : Env) (smtp : SmtpServer)
    (ep : TokenEndpoint) (now : String) (fs : FileState) (account to_addr : String)
    (config : ServerConfig) (addr tok : String)
    (hS : SERVERS env account = some config) (huo : config.use_oauth = true)
    (hsmtp : config.smtp ≠ "")
    (ha : env config.email_env = some addr) (hane : addr ≠ "")
    (hconn : smtp.connects = true)
    (hgv : get_valid_access_token fs = .ok (some tok, none))
    (hx1 : smtp.auth (generate_oauth2_string addr tok false) = none) :
    send_email env smtp ep now fs account to_addr
      = match smtp.sendResp with
        | some e =>
          ⟨.err ⟨false, "SMTP error: " ++ e⟩, fs,
           ⟨[generate_oauth2_string addr tok false], []⟩⟩
        | none =>
          ⟨.ok ("Email sent successfully from " ++ addr ++ " to " ++ to_addr), fs,
           ⟨[generate_oauth2_string addr tok false], []⟩⟩ := by
  unfold send_email
  rw [hS]
  simp only [get_credentials_oauth_ok env account config addr hS huo ha hane]
  rw [if_neg hsmtp, if_pos huo]
  simp only [hgv, Option.getD_some]
  rw [if_pos hconn]
  simp only [hx1]

theorem send_email_oauth_no_refresh_eval (env : Env) (smtp : SmtpServer)
    (ep : TokenEndpoint) (now : String) (tokens : Tokens) (account to_addr : String)
    (config : ServerConfig) (addr a1 e1 : String)
    (hS : SERVERS env account = some config) (huo : config.use_oauth = true)
    (hsmtp : config.smtp ≠ "")
    (ha : env config.email_env = some addr) (hane : addr ≠ "")
    (hconn : smtp.connects = true)
    (htok : dlookup tokens "access_token" = some (.str a1))
    (hnort : dlookup tokens "refresh_token" = none)
    (hx1 : smtp.auth (generate_oauth2_string addr a1 false) = some e1) :
    send_email env smtp ep now (.parsed tokens) account to_addr
      = ⟨.err ⟨false, "Authentication failed: " ++ e1⟩, .parsed tokens,
         ⟨[generate_oauth2_string addr a1 false], []⟩⟩ := by
  have hne : tokens ≠ [] := dlookup_ne_nil htok
  unfold send_email
  rw [hS]
  simp only [get_credentials_oauth_ok env account config addr hS huo ha hane]
  rw [if_neg hsmtp, if_pos huo]
  simp only [get_valid_access_token_parsed tokens a1 htok, Option.getD_some]
  rw [if_pos hconn]
  simp only [hx1, load_tokens]
  rw [if_neg hne]
  simp [hasKey, hnort]

theorem send_email_oauth_refresh_eval (env : Env) (smtp : SmtpServer)
    (ep : TokenEndpoint) (now : String) (tokens newTokens : Tokens)
    (account to_addr : String) (config : ServerConfig) (addr a1 r1 a2 e1 : String)
    (hS : SERVERS env account = some config) (huo : config.use_oauth = true)
    (hsmtp : config.smtp ≠ "")
    (ha : env config.email_env = some addr) (hane : addr ≠ "")
    (hconn : smtp.connects = true)
    (htok : dlookup tokens "access_token" = some (.str a1))
    (hrt : dlookup tokens "refresh_token" = some (.str r1))
    (hid : AZURE_CLIENT_ID env ≠ "") (hten : AZURE_TENANT_ID env ≠ "")
    (hr : ep.refreshResp r1 = .ok newTokens)
    (hA2 : dlookup newTokens "access_token" = some (.str a2))
    (hx1 : smtp.auth (generate_oauth2_string addr a1 false) = some e1) :
    send_email env smtp ep now (.parsed tokens) account to_addr
      = match smtp.auth (generate_oauth2_string addr a2 false) with
        | none =>
          match smtp.sendResp with
          | some e =>
            ⟨.err ⟨false, "SMTP error: " ++ e⟩,
             .parsed (dset newTokens "saved_at" (.str now)),
             ⟨[generate_oauth2_string addr a1 false,
               generate_oauth2_string addr a2 false], [r1]⟩⟩
          | none =>
            ⟨.ok ("Email sent successfully from " ++ addr ++ " to " ++ to_addr),
             .parsed (dset newTokens "saved_at" (.str now)),
             ⟨[generate_oauth2_string addr a1 false,
               generate_oauth2_string addr a2 false], [r1]⟩⟩
        | some e2 =>
          ⟨.err ⟨false, "Authentication failed: " ++ e2⟩,
           .parsed (dset newTokens "saved_at" (.str now)),
           ⟨[generate_oauth2_string addr a1 false,
             generate_oauth2_string addr a2 false], [r1]⟩⟩ := by
  have hne : tokens ≠ [] := dlookup_ne_nil htok
  unfold send_email
  rw [hS]
  simp only [get_credentials_oauth_ok env account config addr hS huo ha hane]
  rw [if_neg hsmtp, if_pos huo]
  simp only [get_valid_access_token_parsed tokens a1 htok, Option.getD_some]
  rw [if_pos hconn]
  simp only [hx1, load_tokens]
  rw [if_neg hne]
  rw [if_pos (by simp [hasKey, hrt])]
  rw [hrt]
  simp only [Option.getD_some, pyStr]
  rw [refresh_access_token_ok_eval env ep now r1 newTokens (.parsed tokens) hid hten hr]
  simp only [Option.getD_some]
  rw [dlookup_dset_of_ne newTokens "saved_at" "access_token" (.str now) (by decide), hA2]

/-!
C1 — the one-shot refresh-and-retry protocol on both roles.
-/

/-- C1: for a session open (read or send role) of an OAuth account whose
stored token dict holds a refresh token, when the first authentication
attempt fails with an authentication-specific error and the one refresh
exchange succeeds, exactly two authentication attempts are made — the
first with the stored access token and the second with the access token
returned by the single refresh exchange — the Token Store afterwards holds
the refreshed (stamped) token set, and a failure of the second attempt is
terminal: no further refresh, no further attempt. -/
theorem oauth_refresh_retry_protocol
    (env : Env) (srv : ImapServer) (smtp : SmtpServer) (ep : TokenEndpoint)
    (now account to_addr addr a1 r1 a2 e1i e1s : String)
    (config : ServerConfig) (tokens newTokens : Tokens)
    (hS : SERVERS env account = some config) (huo : config.use_oauth = true)
    (himap : config.imap ≠ "") (hsmtp : config.smtp ≠ "")
    (ha : env config.email_env = some addr) (hane : addr ≠ "")
    (htok : dlookup tokens "access_token" = some (.str a1))
    (hrt : dlookup tokens "refresh_token" = some (.str r1))
    (hid : AZURE_CLIENT_ID env ≠ "") (hten : AZURE_TENANT_ID env ≠ "")
    (hr : ep.refreshResp r1 = .ok newTokens)
    (hA2 : dlookup newTokens "access_token" = some (.str a2))
    (hconnI : srv.connects = true) (hconnS : smtp.connects = true)
    (hx1i : srv.xoauth (generate_oauth2_string addr a1 false) = some e1i)
    (hx1s : smtp.auth (generate_oauth2_string addr a1 false) = some e1s) :
    ((connect_imap env srv ep now (.parsed tokens) account).trace
        = ⟨[generate_oauth2_string addr a1 false, generate_oauth2_string addr a2 false],
           [r1]⟩ ∧
     (connect_imap env srv ep now (.parsed tokens) account).fs
        = .parsed (dset newTokens "saved_at" (.str now)) ∧
     (srv.xoauth (generate_oauth2_string addr a2 false) = none →
        (connect_imap env srv ep now (.parsed tokens) account).mail
            = some ⟨config.imap, config.imap_port⟩ ∧
        (connect_imap env srv ep now (.parsed tokens) account).err = none) ∧
     (∀ e2, srv.xoauth (generate_oauth2_string addr a2 false) = some e2 →
        (connect_imap env srv ep now (.parsed tokens) account).mail = none ∧
        (connect_imap env srv ep now (.parsed tokens) account).err
            = some ⟨false, "Authentication failed: " ++ e2⟩)) ∧
    ((send_email env smtp ep now (.parsed tokens) account to_addr).trace
        = ⟨[generate_oauth2_string addr a1 false, generate_oauth2_string addr a2 false],
           [r1]⟩ ∧
     (send_email env smtp ep now (.parsed tokens) account to_addr).fs
        = .parsed (dset newTokens "saved_at" (.str now)) ∧
     (∀ e2, smtp.auth (generate_oauth2_string addr a2 false) = some e2 →
        (send_email env smtp ep now (.parsed tokens) account to_addr).res
            = .err ⟨false, "Authentication failed: " ++ e2⟩)) := by
  have hI := connect_imap_oauth_refresh_eval env srv ep now tokens newTokens account
    config addr a1 r1 a2 e1i hS huo himap ha hane hconnI htok hrt hid hten hr hA2 hx1i
  have hE := send_email_oauth_refresh_eval env smtp ep now tokens newTokens account
    to_addr config addr a1 r1 a2 e1s hS huo hsmtp ha hane hconnS htok hrt hid hten hr
    hA2 hx1s
  refine ⟨⟨?_, ?_, ?_, ?_⟩, ?_, ?_, ?_⟩
  · rw [hI]
    cases hx2 : srv.xoauth (generate_oauth2_string addr a2 false) <;> rfl
  · rw [hI]
    cases hx2 : srv.xoauth (generate_oauth2_string addr a2 false) <;> rfl
  · intro hx2
    rw [hI, hx2]
    exact ⟨rfl, rfl⟩
  · intro e2 hx2
    rw [hI, hx2]
    exact ⟨rfl, rfl⟩
  · rw [hE]
    cases hx2 : smtp.auth (generate_oauth2_string addr a2 false)
    · cases smtp.sendResp <;> rfl
    · rfl
  · rw [hE]
    cases hx2 : smtp.auth (generate_oauth2_string addr a2 false)
    · cases smtp.sendResp <;> rfl
    · rfl
  · intro e2 hx2
    rw [hE, hx2]

/-- Witness for C1 at a concrete Hotmail scenario: tokens {A1, R1}, first
attempt rejected, refresh yields {A2, R2}, second attempt accepted. -/
theorem oauth_refresh_retry_protocol_witness :
    (connect_imap envHot srvRetryOk epHot "T" (.parsed tokensA1R1) "hotmail").trace
      = ⟨[auth1h, auth2h], ["R1"]⟩ ∧
    (connect_imap envHot srvRetryOk epHot "T" (.parsed tokensA1R1) "hotmail").fs
      = .parsed (dset tokensA2R2 "saved_at" (.str "T")) ∧
    (send_email envHot smtpRetryOk epHot "T" (.parsed tokensA1R1) "hotmail" "to@x").trace
      = ⟨[auth1h, auth2h], ["R1"]⟩ := by
  have h := oauth_refresh_retry_protocol envHot srvRetryOk smtpRetryOk epHot "T"
    "hotmail" "to@x" "u@h" "A1" "R1" "A2" "bad" "bad" hotmailCfg tokensA1R1 tokensA2R2
    (by decide) rfl (by decide) (by decide) (by decide) (by decide) (by decide)
    (by decide) (by decide) (by decide) rfl (by decide) rfl rfl
    (by decide) (by decide)
  exact ⟨h.1.1, h.1.2.1, h.2.1⟩

/-!
C2 — OAuth token rejected and no refresh token stored.
-/

/-- C2 (counterexample to the claim as stated): on the send role, with a
stored access token, no refresh token and the server rejecting the first
attempt, `send_email` surfaces the generic "Authentication failed" error —
not the dedicated no-refresh-token error that `connect_imap` produces on
the identical store state. -/
theorem oauth_expired_no_refresh_counterexample :
    (send_email envHot smtpRejectAll epHot "T" (.parsed tokensA1only) "hotmail" "to@x").res
      = .err ⟨false, "Authentication failed: bad"⟩ ∧
    (connect_imap envHot srvRejectAll epHot "T" (.parsed tokensA1only) "hotmail").err
      = some ⟨false, "OAuth failed and no refresh token: bad"⟩ ∧
    "Authentication failed: bad" ≠ "OAuth failed and no refresh token: bad" := by
  exact ⟨by decide, by decide, by decide⟩

/-- C2 (amended): with an access token stored, no refresh token, and the
server rejecting the first attempt, both roles perform exactly one
authentication attempt and no refresh exchange and leave the store
untouched; the read role fails with the dedicated no-refresh-token error,
while the send role surfaces the failure as a generic authentication
failure. -/
theorem oauth_expired_no_refresh_behaviour
    (env : Env) (srv : ImapServer) (smtp : SmtpServer) (ep : TokenEndpoint)
    (now account to_addr addr a1 e1i e1s : String)
    (config : ServerConfig) (tokens : Tokens)
    (hS : SERVERS env account = some config) (huo : config.use_oauth = true)
    (himap : config.imap ≠ "") (hsmtp : config.smtp ≠ "")
    (ha : env config.email_env = some addr) (hane : addr ≠ "")
    (htok : dlookup tokens "access_token" = some (.str a1))
    (hnort : dlookup tokens "refresh_token" = none)
    (hconnI : srv.connects = true) (hconnS : smtp.connects = true)
    (hx1i : srv.xoauth (generate_oauth2_string addr a1 false) = some e1i)
    (hx1s : smtp.auth (generate_oauth2_string addr a1 false) = some e1s) :
    connect_imap env srv ep now (.parsed tokens) account
      = ⟨none, some ⟨false, "OAuth failed and no refresh token: " ++ e1i⟩,
         .parsed tokens, ⟨[generate_oauth2_string addr a1 false], []⟩⟩ ∧
    send_email env smtp ep now (.parsed tokens) account to_addr
      = ⟨.err ⟨false, "Authentication failed: " ++ e1s⟩, .parsed tokens,
         ⟨[generate_oauth2_string addr a1 false], []⟩⟩ :=
  ⟨connect_imap_oauth_no_refresh_eval env srv ep now tokens account config addr a1 e1i
     hS huo himap ha hane hconnI htok hnort hx1i,
   send_email_oauth_no_refresh_eval env smtp ep now tokens account to_addr config addr
     a1 e1s hS huo hsmtp ha hane hconnS htok hnort hx1s⟩

/-- Witness for the amended C2 at the concrete Hotmail scenario. -/
theorem oauth_expired_no_refresh_behaviour_witness :
    connect_imap envHot srvRejectAll epHot "T" (.parsed tokensA1only) "hotmail"
      = ⟨none, some ⟨false, "OAuth failed and no refresh token: bad"⟩,
         .parsed tokensA1only, ⟨[auth1h], []⟩⟩ ∧
    send_email envHot smtpRejectAll epHot "T" (.parsed tokensA1only) "hotmail" "to@x"
      = ⟨.err ⟨false, "Authentication failed: bad"⟩, .parsed tokensA1only,
         ⟨[auth1h], []⟩⟩ := by
  have h := oauth_expired_no_refresh_behaviour envHot srvRejectAll smtpRejectAll epHot
    "T" "hotmail" "to@x" "u@h" "A1" "bad" "bad" hotmailCfg tokensA1only
    (by decide) rfl (by decide) (by decide) (by decide) (by decide) (by decide)
    (by decide) rfl rfl (by decide) (by decide)
  have h1 := h.1
  have h2 := h.2
  constructor
  · rw [h1]
    decide
  · rw [h2]
    decide

/-!
C7 — first attempt succeeds: no refresh, no store write.
-/

/-- C7: for a session open (read or send role) of an OAuth account, if the
first protocol authentication attempt succeeds then no refresh exchange is
performed and the Token Store is not written: the file state is returned
unchanged. -/
theorem first_success_no_refresh_no_write
    (env : Env) (srv : ImapServer) (smtp : SmtpServer) (ep : TokenEndpoint)
    (now account to_addr addr tok : String) (config : ServerConfig) (fs : FileState)
    (hS : SERVERS env account = some config) (huo : config.use_oauth = true)
    (himap : config.imap ≠ "") (hsmtp : config.smtp ≠ "")
    (ha : env config.email_env = some addr) (hane : addr ≠ "")
    (hgv : get_valid_access_token fs = .ok (some tok, none))
    (hconnI : srv.connects = true) (hconnS : smtp.connects = true)
    (hx1i : srv.xoauth (generate_oauth2_string addr tok false) = none)
    (hx1s : smtp.auth (generate_oauth2_string addr tok false) = none) :
    (connect_imap env srv ep now fs account).fs = fs ∧
    (connect_imap env srv ep now fs account).trace.refreshes = [] ∧
    (connect_imap env srv ep now fs account).mail
        = some ⟨config.imap, config.imap_port⟩ ∧
    (connect_imap env srv ep now fs account).err = none ∧
    (send_email env smtp ep now fs account to_addr).fs = fs ∧
    (send_email env smtp ep now fs account to_addr).trace.refreshes = [] := by
  have hI := connect_imap_oauth_first_success_eval env srv ep now fs account config
    addr tok hS huo himap ha hane hconnI hgv hx1i
  have hE := send_email_oauth_first_success_eval env smtp ep now fs account to_addr
    config addr tok hS huo hsmtp ha hane hconnS hgv hx1s
  refine ⟨by rw [hI], by rw [hI], by rw [hI], by rw [hI], ?_, ?_⟩
  · rw [hE]
    cases smtp.sendResp <;> rfl
  · rw [hE]
    cases smtp.sendResp <;> rfl

/-- Witness for C7 at the concrete Hotmail scenario where the first attempt
is accepted on both roles. -/
theorem first_success_no_refresh_no_write_witness :
    (connect_imap envHot srvAcceptAll epHot "T" (.parsed tokensA1R1) "hotmail").fs
      = .parsed tokensA1R1 ∧
    (connect_imap envHot srvAcceptAll epHot "T" (.parsed tokensA1R1) "hotmail").trace.refreshes
      = [] ∧
    (send_email envHot smtpAcceptAll epHot "T" (.parsed tokensA1R1) "hotmail" "to@x").trace.refreshes
      = [] := by
  have h := first_success_no_refresh_no_write envHot srvAcceptAll smtpAcceptAll epHot
    "T" "hotmail" "to@x" "u@h" "A1" hotmailCfg (.parsed tokensA1R1)
    (by decide) rfl (by decide) (by decide) (by decide) (by decide) rfl
    rfl rfl (by decide) (by decide)
  exact ⟨h.1, h.2.1, h.2.2.2.2.2⟩

/-!
C3 — static-secret credential resolution.
-/

/-- C3 (counterexample to the claim as stated): a non-empty static secret
containing a tab keeps the tab — the resolver removes only space
characters, not all whitespace. -/
theorem whitespace_not_fully_stripped_counterexample :
    get_credentials envGmailTab "gmail" = (some "a@b", some "ab\tcd", none) ∧
    ("ab\tcd".toList.any Char.isWhitespace) = true ∧
    "ab\tcd" ≠ "abcd" := by
  exact ⟨by decide, by decide, by decide⟩

/-- C3 (amended): for a static-secret account, credential resolution fails
with the missing-field error iff the configured address or the configured
secret environment value is unset or empty (naming the missing field);
otherwise the returned secret is the configured value with its space
characters (only) removed. -/
theorem get_credentials_static_secret_behaviour
    (env : Env) (account : String) (config : ServerConfig)
    (hS : SERVERS env account = some config) (huo : config.use_oauth = false) :
    (pyFalsy (env config.email_env) = true →
      get_credentials env account
        = (none, none, some ("Missing " ++ config.email_env))) ∧
    (pyFalsy (env config.email_env) = false → pyFalsy (env config.password_env) = true →
      get_credentials env account
        = (none, none, some ("Missing " ++ config.password_env))) ∧
    (pyFalsy (env config.email_env) = false → pyFalsy (env config.password_env) = false →
      get_credentials env account
        = (env config.email_env, (env config.password_env).map removeSpaces, none)) ∧
    ((get_credentials env account).2.2.isSome = true ↔
      (pyFalsy (env config.email_env) = true ∨ pyFalsy (env config.password_env) = true)) := by
  refine ⟨?_, ?_, ?_, ?_⟩
  · intro h
    simp [get_credentials, hS, h]
  · intro h1 h2
    simp [get_credentials, hS, h1, h2, huo]
  · intro h1 h2
    simp [get_credentials, hS, h1, h2, huo]
  · by_cases h1 : pyFalsy (env config.email_env) = true
    · simp [get_credentials, hS, h1]
    · rw [Bool.not_eq_true] at h1
      by_cases h2 : pyFalsy (env config.password_env) = true
      · simp [get_credentials, hS, h1, h2, huo]
      · rw [Bool.not_eq_true] at h2
        simp [get_credentials, hS, h1, h2, huo]

/-- Witness for the amended C3: the spec's own scenario — secret
"abcd efgh ijkl mnop" resolves with its spaces removed. -/
theorem get_credentials_static_secret_behaviour_witness :
    get_credentials envGmail "gmail" = (some "a@b", some "abcdefghijklmnop", none) := by
  have h := get_credentials_static_secret_behaviour envGmail "gmail" gmailCfg
    (by decide) rfl
  have h3 := h.2.2.1 (by decide) (by decide)
  rw [h3]
  decide

/-!
C8 — identifiers outside the enumerated set.
-/

/-- C8 (counterexample to the claim as stated): for the non-enumerated
identifier "yahoo", session open on either role fails with the
not-configured-for-account error, not with the UnknownAccount error the
credential resolver produces. -/
theorem unknown_account_not_unknown_error_counterexample :
    (connect_imap envNone srvAcceptAll epHot "T" .missing "yahoo").err
      = some ⟨false, "IMAP not configured for yahoo"⟩ ∧
    (send_email envNone smtpAcceptAll epHot "T" .missing "yahoo" "to@x").res
      = .err ⟨false, "SMTP not configured for yahoo"⟩ ∧
    "IMAP not configured for yahoo" ≠ "Unknown account: yahoo" ∧
    "SMTP not configured for yahoo" ≠ "Unknown account: yahoo" := by
  exact ⟨by decide, by decide, by decide, by decide⟩

/-- C8 (amended): for every identifier outside the enumerated set {gmail,
ac-creteil, hotmail}, the registry yields nothing, credential resolution
fails with the UnknownAccount error, and session open on either role fails
immediately — but with the role's not-configured error message (the same
one used when a role's host is absent), not with UnknownAccount. -/
theorem unknown_account_errors
    (env : Env) (srv : ImapServer) (smtp : SmtpServer) (ep : TokenEndpoint)
    (now to_addr account : String) (fs : FileState)
    (h1 : account ≠ "gmail") (h2 : account ≠ "ac-creteil") (h3 : account ≠ "hotmail") :
    SERVERS env account = none ∧
    get_credentials env account = (none, none, some ("Unknown account: " ++ account)) ∧
    connect_imap env srv ep now fs account
      = ⟨none, some ⟨false, "IMAP not configured for " ++ account⟩, fs, ⟨[], []⟩⟩ ∧
    send_email env smtp ep now fs account to_addr
      = ⟨.err ⟨false, "SMTP not configured for " ++ account⟩, fs, ⟨[], []⟩⟩ := by
  have hS : SERVERS env account = none := by
    simp [SERVERS, h1, h2, h3]
  refine ⟨hS, ?_, ?_, ?_⟩
  · unfold get_credentials
    rw [hS]
  · unfold connect_imap
    rw [hS]
  · unfold send_email
    rw [hS]

/-- Witness for the amended C8 at the concrete identifier "yahoo". -/
theorem unknown_account_errors_witness :
    get_credentials envNone "yahoo" = (none, none, some "Unknown account: yahoo") ∧
    connect_imap envNone srvAcceptAll epHot "T" .missing "yahoo"
      = ⟨none, some ⟨false, "IMAP not configured for yahoo"⟩, .missing, ⟨[], []⟩⟩ := by
  have h := unknown_account_errors envNone srvAcceptAll smtpAcceptAll epHot "T" "to@x"
    "yahoo" .missing (by decide) (by decide) (by decide)
  constructor
  · rw [h.2.1]
    decide
  · rw [h.2.2.1]
    decide

/-!
C9 — token status reporting before and after a completed authorization.
-/

/-- C9 (counterexample to the claim as stated): a successful code exchange
whose provider response carries no refresh token is persisted, after which
the status reports has_refresh_token = false — not true as claimed. -/
theorem token_status_counterexample :
    (exchange_code_for_tokens envHot epNoRT "T" "C" .missing).1.2 = none ∧
    oauth_status (exchange_code_for_tokens envHot epNoRT "T" "C" .missing).2.1
      = .ok (.configured "T" false) := by
  exact ⟨rfl, rfl⟩

/-- C9 (amended): with no token file the status reports not-configured;
after a successful code exchange the persisted dict is the provider
response stamped with the save-time timestamp, and the status reports
configured, with savedAt equal to that (non-empty) timestamp and
hasRefreshToken true exactly when the provider response contained a
refresh token. -/
theorem token_status_reporting
    (env : Env) (ep : TokenEndpoint) (now code : String) (tokens : Tokens)
    (fs : FileState)
    (hid : AZURE_CLIENT_ID env ≠ "") (hten : AZURE_TENANT_ID env ≠ "")
    (hx : ep.exchangeResp code = .ok tokens) (hnow : now ≠ "") :
    oauth_status .missing = .ok .notConfigured ∧
    exchange_code_for_tokens env ep now code fs
      = ((some (dset tokens "saved_at" (.str now)), none),
         .parsed (dset tokens "saved_at" (.str now)), [code]) ∧
    oauth_status (exchange_code_for_tokens env ep now code fs).2.1
      = .ok (.configured now (hasKey tokens "refresh_token")) ∧
    now ≠ "" := by
  have hex : exchange_code_for_tokens env ep now code fs
      = ((some (dset tokens "saved_at" (.str now)), none),
         .parsed (dset tokens "saved_at" (.str now)), [code]) := by
    unfold exchange_code_for_tokens
    rw [if_neg (by simp [hid, hten]), hx]
    rfl
  refine ⟨rfl, hex, ?_, hnow⟩
  rw [hex]
  have hst : hasKey (dset tokens "saved_at" (.str now)) "refresh_token"
      = hasKey tokens "refresh_token" := by
    unfold hasKey
    rw [dlookup_dset_of_ne tokens "saved_at" "refresh_token" (.str now) (by decide)]
  unfold oauth_status
  simp only [load_tokens]
  rw [if_neg (dset_ne_nil tokens "saved_at" (.str now))]
  rw [dlookup_dset_self tokens "saved_at" (.str now), hst]
  rfl

/-- Witness for the amended C9 at a concrete exchange whose response does
contain a refresh token. -/
theorem token_status_reporting_witness :
    oauth_status .missing = .ok .notConfigured ∧
    oauth_status (exchange_code_for_tokens envHot epHot "T" "C" .missing).2.1
      = .ok (.configured "T" true) := by
  have h := token_status_reporting envHot epHot "T" "C" tokensA2R2 .missing
    (by decide) (by decide) rfl (by decide)
  refine ⟨h.1, ?_⟩
  rw [h.2.2.1]
  rfl

/-!
C10 — connect_imap yields exactly one of a session or an error record, the
latter always with success = false and a non-empty error detail.
-/

theorem get_credentials_error_ne (env : Env) (account : String)
    (x y : Option String) (e : String)
    (h : get_credentials env account = (x, y, some e)) : e ≠ "" := by
  unfold get_credentials at h
  split at h
  · simp only [Prod.mk.injEq, Option.some.injEq] at h
    rw [← h.2.2]
    exact string_append_ne_empty "Unknown account: " account (by decide)
  · dsimp only at h
    split at h
    · simp only [Prod.mk.injEq, Option.some.injEq] at h
      rw [← h.2.2]
      exact string_append_ne_empty "Missing " _ (by decide)
    · split at h
      · simp only [Prod.mk.injEq, Option.some.injEq] at h
        rw [← h.2.2]
        exact string_append_ne_empty "Missing " _ (by decide)
      · simp only [Prod.mk.injEq] at h
        exact absurd h.2.2 (by simp)

theorem get_valid_access_token_error_ne (fs : FileState) (x : Option String) (e : String)
    (h : get_valid_access_token fs = .ok (x, some e)) : e ≠ "" := by
  unfold get_valid_access_token at h
  cases fs with
  | missing =>
    simp only [load_tokens, Except.ok.injEq, Prod.mk.injEq, Option.some.injEq] at h
    rw [← h.2]
    decide
  | unparseable =>
    simp only [load_tokens, Except.ok.injEq, Prod.mk.injEq, Option.some.injEq] at h
    rw [← h.2]
    decide
  | ioFault m =>
    simp [load_tokens] at h
  | parsed t =>
    simp only [load_tokens] at h
    split at h
    · simp only [Except.ok.injEq, Prod.mk.injEq, Option.some.injEq] at h
      rw [← h.2]
      decide
    · split at h
      · simp only [Except.ok.injEq, Prod.mk.injEq] at h
        exact absurd h.2 (by simp)
      · simp only [Except.ok.injEq, Prod.mk.injEq, Option.some.injEq] at h
        rw [← h.2]
        decide

/-- C10: for every environment, server behaviour, token-endpoint behaviour
and token-file state, `connect_imap` returns exactly one of a live session
handle or an error record; whenever the error record is returned it carries
success = false and a non-empty error detail string. -/
theorem connect_imap_session_xor_error
    (env : Env) (srv : ImapServer) (ep : TokenEndpoint) (now : String)
    (fs : FileState) (account : String) :
    ((connect_imap env srv ep now fs account).mail ≠ none ∧
     (connect_imap env srv ep now fs account).err = none) ∨
    ((connect_imap env srv ep now fs account).mail = none ∧
     ∃ e, (connect_imap env srv ep now fs account).err = some e ∧
       e.success = false ∧ e.error ≠ "") := by
  unfold connect_imap
  dsimp only
  repeat' split
  all_goals try exact Or.inl ⟨by simp, rfl⟩
  all_goals try exact Or.inr ⟨rfl, _, rfl, rfl, string_append_ne_empty _ _ (by decide)⟩
  all_goals first
    | exact Or.inr ⟨rfl, _, rfl, rfl, get_credentials_error_ne _ _ _ _ _ (by assumption)⟩
    | exact Or.inr ⟨rfl, _, rfl, rfl, get_valid_access_token_error_ne _ _ _ (by assumption)⟩
